import Mathlib

/-!
# okta-aws-cli: the `web` sub command (`cmd/root/web/web.go`)

A shallow embedding of the `RunE` closure built by `NewWebCommand`.  The
collaborators living in other packages (`config`, `flag`, `webssoauth`,
`okta`) are represented by an environment of scripted results; every call
made by `RunE` is counted and every `ConsolePrint` is recorded, so that the
retry behaviour of the command can be stated and proved.
-/

namespace Web

/-- Modelled from the spec: the struct `okta.APIError` is declared in package
`internal/okta`, outside this file.  It is the "tagged error with a kind and a
human-readable message from the provider"; `web.go` reads the field
`ErrorType` only. -/
structure APIError where
  ErrorType : String
  ErrorDescription : String
deriving DecidableEq, Repr

/-- A non-nil Go `error` value, classified by the dynamic types `web.go`
type-asserts on: `*okta.APIError`, `*fs.PathError`, or anything else.
The nil `error` is `none : Option GoError`. -/
inductive GoError where
  | api (e : APIError)
  | path (msg : String)
  | other (msg : String)
deriving DecidableEq, Repr

/-- The `*config.Config` handle produced by `config.EvaluateSettings`. -/
structure Config where
  ident : Nat
deriving DecidableEq, Repr

/-- An argument handed to a `ConsolePrint` format. -/
inductive PrintArg where
  | str (s : String)
  | err (e : GoError)
deriving DecidableEq, Repr

/-- One call `webssoauth.ConsolePrint(cfg, format, args...)`. -/
structure Print where
  format : String
  args : List PrintArg
deriving DecidableEq, Repr

/-- The collaborators of `RunE`.  Calls that can happen more than once in a
run are scripted by the zero-based index of the call. -/
structure Env where
  /-- The result of `config.EvaluateSettings()`. -/
  evaluateSettings : Except GoError Config
  /-- The error of `config.OktaConfig()`. -/
  oktaConfig : Option GoError
  /-- The constant `config.OktaYaml`. -/
  oktaYaml : String
  /-- The function `cliFlag.CheckRequiredFlags`. -/
  checkRequiredFlags : List String → Option GoError
  /-- The error of the k-th `webssoauth.NewWebSSOAuthentication(cfg)`. -/
  newWebSSOAuthentication : Config → Nat → Option GoError
  /-- The result of the k-th `wsa.EstablishIAMCredentials()`. -/
  establishIAMCredentials : Nat → Option GoError
  /-- The result of the k-th `webssoauth.RemoveCachedAccessToken()`. -/
  removeCachedAccessToken : Nat → Bool

/-- What a run has done so far: the number of calls made to each repeated
collaborator and the `ConsolePrint` calls, oldest first. -/
structure State where
  wsaCalls : Nat
  establishCalls : Nat
  removeCalls : Nat
  console : List Print
deriving DecidableEq, Repr

/-- The state before `RunE` starts. -/
def State.init : State := ⟨0, 0, 0, []⟩

/-- The package variable `requiredFlags`. -/
def requiredFlags : List String := ["org-domain", "oidc-client-id"]

/-- The format of the warning printed when okta.yaml exists but is broken. -/
def oktaYamlWarning : String :=
  "WARNING: issue with %s file. Run `okta-aws-cli debug` command for additional diagnosis.\nError: %+v\n"

/-- The format printed before the command retries. -/
def retryNotice : String :=
  "Cached access token appears to be stale, removing token and retrying device authorization ...\n\n"

/-- The format printed by the block that follows the loop. -/
def remediationGuidance : String :=
  "Authentication failed after multiple attempts. Please log out of Okta in your browser and log back in to resolve the issue.\n"

/-- The call `webssoauth.ConsolePrint(cfg, format, args...)`. -/
def ConsolePrint (s : State) (format : String) (args : List PrintArg) : State :=
  { s with console := s.console ++ [⟨format, args⟩] }

/-- The type assertion `err.(*okta.APIError)`: the pointer and the `ok` flag.
A nil `error`, or one of another dynamic type, gives a nil pointer and
`false`.  (`GoError.api` always carries a struct: a nil `*okta.APIError`
stored in a non-nil `error` is not represented.) -/
def assertAPIError : Option GoError → Option APIError × Bool
  | some (.api a) => (some a, true)
  | _ => (none, false)

/-- The type assertion `err.(*fs.PathError)`, its `ok` flag only. -/
def assertPathError : Option GoError → Bool
  | some (.path _) => true
  | _ => false

/-- The variables of `RunE` declared outside the loop and live across it:
`err` (line 84) and `apiErr` (line 102). -/
structure Locals where
  err : Option GoError
  apiErr : Option APIError
deriving DecidableEq, Repr

/-- How one pass through the loop body ends. -/
inductive Flow where
  | continue_ (l : Locals) (s : State)
  | break_ (l : Locals) (s : State)
  | return_ (e : Option GoError) (s : State)
deriving DecidableEq, Repr

/-- Lines 119-123, the end of the loop body: `if err != nil { return err }`
and then `break`.  The `err` read here is the one of the body. -/
def returnOrBreak (err : Option GoError) (l : Locals) (s : State) : Flow :=
  match err with
  | some e => .return_ (some e) s
  | none => .break_ l s

/-- The body of the loop, lines 105-123.  The `err` of line 105 is declared by
`wsa, err :=` in the scope of the body, so the body never writes `l.err`;
`apiErr` is assigned with `=` and is the variable of line 102. -/
def loopBody (env : Env) (cfg : Config) (l : Locals) (s : State) : Flow :=
  -- wsa, err := webssoauth.NewWebSSOAuthentication(cfg)
  let err := env.newWebSSOAuthentication cfg s.wsaCalls
  let s := { s with wsaCalls := s.wsaCalls + 1 }
  match err with
  | some e => .return_ (some e) s
  | none =>
    -- err = wsa.EstablishIAMCredentials()
    let err := env.establishIAMCredentials s.establishCalls
    let s := { s with establishCalls := s.establishCalls + 1 }
    -- apiErr, ok = err.(*okta.APIError)
    let l := { l with apiErr := (assertAPIError err).1 }
    let ok := (assertAPIError err).2
    match ok, l.apiErr with
    | true, some a =>
      if a.ErrorType = "invalid_grant" then
        -- the right operand of && is evaluated only in this branch
        let removed := env.removeCachedAccessToken s.removeCalls
        let s := { s with removeCalls := s.removeCalls + 1 }
        if removed then
          .continue_ l (ConsolePrint s retryNotice [])
        else
          returnOrBreak err l s
      else
        returnOrBreak err l s
    | _, _ => returnOrBreak err l s

/-- How the loop statement ends: by a `return` inside it, or by falling out
of it (`break`, or the condition `attempt <= 2` failing). -/
inductive LoopEnd where
  | returned (e : Option GoError) (s : State)
  | fellThrough (l : Locals) (s : State)
deriving DecidableEq, Repr

/-- The statement `for attempt := 1; attempt <= 2; attempt++`, entered with
the given value of `attempt`. -/
def forLoop (env : Env) (cfg : Config) (attempt : Nat) (l : Locals) (s : State) : LoopEnd :=
  if attempt ≤ 2 then
    match loopBody env cfg l s with
    | .continue_ l s => forLoop env cfg (attempt + 1) l s
    | .break_ l s => .fellThrough l s
    | .return_ e s => .returned e s
  else
    .fellThrough l s
termination_by 3 - attempt
decreasing_by omega

/-- Lines 89-95: the warning about an okta.yaml that exists but cannot be
used.  A `*fs.PathError` (no such file) is silent. -/
def warnOktaConfig (env : Env) (s : State) : State :=
  -- _, err = config.OktaConfig()
  let err := env.oktaConfig
  match err with
  | some e =>
    if !assertPathError err then
      ConsolePrint s oktaYamlWarning [.str env.oktaYaml, .err e]
    else s
  | none => s

/-- Lines 126-133, the statements after the loop.  They read the `err` of
line 84 and the `apiErr` of line 102. -/
def afterLoop (l : Locals) (s : State) : Option GoError × State :=
  match l.err with
  | some e =>
    match l.apiErr with
    | some a =>
      if a.ErrorType = "invalid_grant" then
        (some e, ConsolePrint s remediationGuidance [])
      else (some e, s)
    | none => (some e, s)
  | none => (none, s)

/-- The closure `RunE` of `NewWebCommand`: the returned `error` and what the
run did. -/
def RunE (env : Env) : Option GoError × State :=
  let s := State.init
  -- cfg, err := config.EvaluateSettings()
  match env.evaluateSettings with
  | .error e => (some e, s)
  | .ok cfg =>
    let s := warnOktaConfig env s
    -- err = cliFlag.CheckRequiredFlags(requiredFlags)
    let err := env.checkRequiredFlags requiredFlags
    match err with
    | some e => (some e, s)
    | none =>
      -- var apiErr *okta.APIError
      let l : Locals := ⟨err, none⟩
      match forLoop env cfg 1 l s with
      | .returned e s => (e, s)
      | .fellThrough l s => afterLoop l s

/-! ## Vocabulary of the properties -/

/-- An attempt "fails with invalid_grant": its error is an `*okta.APIError`
whose `ErrorType` is `"invalid_grant"`. -/
def IsInvalidGrant (r : Option GoError) : Prop :=
  ∃ a : APIError, r = some (.api a) ∧ a.ErrorType = "invalid_grant"

/-- How many `ConsolePrint` calls of a run used the given format. -/
def printed (format : String) (s : State) : Nat :=
  s.console.countP (fun p => p.format = format)

/-- The state in which a pass through the loop body ends. -/
def Flow.state : Flow → State
  | .continue_ _ s => s
  | .break_ _ s => s
  | .return_ _ s => s

/-- The state in which the loop statement ends. -/
def LoopEnd.state : LoopEnd → State
  | .returned _ s => s
  | .fellThrough _ s => s

/-! ## Concrete environments -/

/-- An `invalid_grant` error as the provider sends it. -/
def invalidGrant : GoError := .api ⟨"invalid_grant", "The refresh token is invalid or expired."⟩

/-- A second `invalid_grant` error, told apart by its description. -/
def invalidGrantAgain : GoError := .api ⟨"invalid_grant", "The device code is invalid or expired."⟩

/-- A provider error of another kind. -/
def accessDenied : GoError := .api ⟨"access_denied", "The user denied the request."⟩

/-- A transport failure, not an `*okta.APIError`. -/
def transportError : GoError := .other "dial tcp: i/o timeout"

/-- An environment in which settings and flags are fine and the two scripts
give the results of `EstablishIAMCredentials` and `RemoveCachedAccessToken`;
calls beyond a script get success and `false`. -/
def scripted (est : List (Option GoError)) (rm : List Bool) : Env where
  evaluateSettings := .ok ⟨0⟩
  oktaConfig := none
  oktaYaml := "okta.yaml"
  checkRequiredFlags := fun _ => none
  newWebSSOAuthentication := fun _ _ => none
  establishIAMCredentials := fun k => (est.get? k).join
  removeCachedAccessToken := fun k => (rm.get? k).getD false

/-- The environment of `scripted` with a required flag missing. -/
def missingFlag (est : List (Option GoError)) (rm : List Bool) : Env :=
  { scripted est rm with
    checkRequiredFlags := fun _ => some (.other "missing flags: --oidc-client-id") }

/-! ## The loop -/

theorem forLoop_three (env : Env) (cfg : Config) (l : Locals) (s : State) :
    forLoop env cfg 3 l s = .fellThrough l s := by
  rw [forLoop]; simp

theorem forLoop_two (env : Env) (cfg : Config) (l : Locals) (s : State) :
    forLoop env cfg 2 l s =
      match loopBody env cfg l s with
      | .continue_ l s => .fellThrough l s
      | .break_ l s => .fellThrough l s
      | .return_ e s => .returned e s := by
  rw [forLoop]; simp [forLoop_three]

theorem forLoop_one (env : Env) (cfg : Config) (l : Locals) (s : State) :
    forLoop env cfg 1 l s =
      match loopBody env cfg l s with
      | .continue_ l s => forLoop env cfg 2 l s
      | .break_ l s => .fellThrough l s
      | .return_ e s => .returned e s := by
  rw [forLoop]; simp

/-! ### One pass through the body, by the results it receives -/

theorem loopBody_wsa_error (env : Env) (cfg : Config) (l : Locals) (s : State) (e : GoError)
    (hw : env.newWebSSOAuthentication cfg s.wsaCalls = some e) :
    loopBody env cfg l s = .return_ (some e) { s with wsaCalls := s.wsaCalls + 1 } := by
  simp [loopBody, hw]

theorem loopBody_success (env : Env) (cfg : Config) (l : Locals) (s : State)
    (hw : env.newWebSSOAuthentication cfg s.wsaCalls = none)
    (he : env.establishIAMCredentials s.establishCalls = none) :
    loopBody env cfg l s =
      .break_ { l with apiErr := none }
        { s with wsaCalls := s.wsaCalls + 1, establishCalls := s.establishCalls + 1 } := by
  simp [loopBody, hw, he, assertAPIError, returnOrBreak]

theorem loopBody_other_error (env : Env) (cfg : Config) (l : Locals) (s : State) (e : GoError)
    (hw : env.newWebSSOAuthentication cfg s.wsaCalls = none)
    (he : env.establishIAMCredentials s.establishCalls = some e)
    (hk : ¬ IsInvalidGrant (some e)) :
    loopBody env cfg l s =
      .return_ (some e)
        { s with wsaCalls := s.wsaCalls + 1, establishCalls := s.establishCalls + 1 } := by
  cases e with
  | api a =>
    have hne : a.ErrorType ≠ "invalid_grant" := fun h => hk ⟨a, rfl, h⟩
    simp [loopBody, hw, he, assertAPIError, returnOrBreak, hne]
  | path m => simp [loopBody, hw, he, assertAPIError, returnOrBreak]
  | other m => simp [loopBody, hw, he, assertAPIError, returnOrBreak]

theorem loopBody_invalid_grant_kept (env : Env) (cfg : Config) (l : Locals) (s : State)
    (a : APIError)
    (hw : env.newWebSSOAuthentication cfg s.wsaCalls = none)
    (he : env.establishIAMCredentials s.establishCalls = some (.api a))
    (ha : a.ErrorType = "invalid_grant")
    (hr : env.removeCachedAccessToken s.removeCalls = false) :
    loopBody env cfg l s =
      .return_ (some (.api a))
        { s with wsaCalls := s.wsaCalls + 1, establishCalls := s.establishCalls + 1,
                 removeCalls := s.removeCalls + 1 } := by
  simp [loopBody, hw, he, assertAPIError, returnOrBreak, ha, hr]

theorem loopBody_invalid_grant_removed (env : Env) (cfg : Config) (l : Locals) (s : State)
    (a : APIError)
    (hw : env.newWebSSOAuthentication cfg s.wsaCalls = none)
    (he : env.establishIAMCredentials s.establishCalls = some (.api a))
    (ha : a.ErrorType = "invalid_grant")
    (hr : env.removeCachedAccessToken s.removeCalls = true) :
    loopBody env cfg l s =
      .continue_ { l with apiErr := some a }
        { s with wsaCalls := s.wsaCalls + 1, establishCalls := s.establishCalls + 1,
                 removeCalls := s.removeCalls + 1,
                 console := s.console ++ [⟨retryNotice, []⟩] } := by
  simp [loopBody, hw, he, assertAPIError, ha, hr, ConsolePrint]

/-- Every result of an attempt is a success, an `invalid_grant` failure, or a
failure of another kind. -/
theorem result_cases (r : Option GoError) :
    r = none ∨ IsInvalidGrant r ∨ ∃ e, r = some e ∧ ¬ IsInvalidGrant (some e) := by
  cases r with
  | none => exact Or.inl rfl
  | some e =>
    by_cases h : IsInvalidGrant (some e)
    · exact Or.inr (Or.inl h)
    · exact Or.inr (Or.inr ⟨e, rfl, h⟩)

/-- The five ways a pass through the body can go. -/
theorem loopBody_cases (env : Env) (cfg : Config) (l : Locals) (s : State) :
    (∃ e, loopBody env cfg l s = .return_ (some e) { s with wsaCalls := s.wsaCalls + 1 }) ∨
    (loopBody env cfg l s =
      .break_ { l with apiErr := none }
        { s with wsaCalls := s.wsaCalls + 1, establishCalls := s.establishCalls + 1 }) ∨
    (∃ e, loopBody env cfg l s =
      .return_ (some e)
        { s with wsaCalls := s.wsaCalls + 1, establishCalls := s.establishCalls + 1 }) ∨
    (∃ e, loopBody env cfg l s =
      .return_ (some e)
        { s with wsaCalls := s.wsaCalls + 1, establishCalls := s.establishCalls + 1,
                 removeCalls := s.removeCalls + 1 }) ∨
    (∃ a, loopBody env cfg l s =
      .continue_ { l with apiErr := some a }
        { s with wsaCalls := s.wsaCalls + 1, establishCalls := s.establishCalls + 1,
                 removeCalls := s.removeCalls + 1,
                 console := s.console ++ [⟨retryNotice, []⟩] }) := by
  cases hw : env.newWebSSOAuthentication cfg s.wsaCalls with
  | some e => exact Or.inl ⟨e, loopBody_wsa_error env cfg l s e hw⟩
  | none =>
    rcases result_cases (env.establishIAMCredentials s.establishCalls) with he | ⟨a, he, ha⟩ | ⟨e, he, hk⟩
    · exact Or.inr (Or.inl (loopBody_success env cfg l s hw he))
    · cases hr : env.removeCachedAccessToken s.removeCalls with
      | false =>
        exact Or.inr (Or.inr (Or.inr (Or.inl
          ⟨_, loopBody_invalid_grant_kept env cfg l s a hw he ha hr⟩)))
      | true =>
        exact Or.inr (Or.inr (Or.inr (Or.inr
          ⟨a, loopBody_invalid_grant_removed env cfg l s a hw he ha hr⟩)))
    · exact Or.inr (Or.inr (Or.inl ⟨e, loopBody_other_error env cfg l s e hw he hk⟩))

/-- One pass makes at most one call of each kind, and a call to
`RemoveCachedAccessToken` only after a call to `EstablishIAMCredentials`. -/
theorem loopBody_counts (env : Env) (cfg : Config) (l : Locals) (s : State) :
    (loopBody env cfg l s).state.establishCalls ≤ s.establishCalls + 1 ∧
    (loopBody env cfg l s).state.removeCalls ≤ s.removeCalls + 1 ∧
    (loopBody env cfg l s).state.removeCalls + s.establishCalls ≤
      s.removeCalls + (loopBody env cfg l s).state.establishCalls := by
  rcases loopBody_cases env cfg l s with ⟨e, h⟩ | h | ⟨e, h⟩ | ⟨e, h⟩ | ⟨a, h⟩ <;>
    (simp only [h, Flow.state]; omega)

/-- The loop entered at attempt 2 makes at most one call of each kind. -/
theorem forLoop_two_counts (env : Env) (cfg : Config) (l : Locals) (s : State) :
    (forLoop env cfg 2 l s).state.establishCalls ≤ s.establishCalls + 1 ∧
    (forLoop env cfg 2 l s).state.removeCalls ≤ s.removeCalls + 1 ∧
    (forLoop env cfg 2 l s).state.removeCalls + s.establishCalls ≤
      s.removeCalls + (forLoop env cfg 2 l s).state.establishCalls := by
  have h := loopBody_counts env cfg l s
  rw [forLoop_two]
  cases hb : loopBody env cfg l s <;> simpa [hb, Flow.state, LoopEnd.state] using h

/-- The whole loop makes at most two calls of each kind. -/
theorem forLoop_one_counts (env : Env) (cfg : Config) (l : Locals) (s : State) :
    (forLoop env cfg 1 l s).state.establishCalls ≤ s.establishCalls + 2 ∧
    (forLoop env cfg 1 l s).state.removeCalls ≤ s.removeCalls + 2 ∧
    (forLoop env cfg 1 l s).state.removeCalls + s.establishCalls ≤
      s.removeCalls + (forLoop env cfg 1 l s).state.establishCalls := by
  have h := loopBody_counts env cfg l s
  rw [forLoop_one]
  cases hb : loopBody env cfg l s with
  | continue_ l1 s1 =>
    have h2 := forLoop_two_counts env cfg l1 s1
    simp only [hb, Flow.state] at h
    simp only
    omega
  | break_ l1 s1 =>
    simp only [hb, Flow.state] at h
    simp only [LoopEnd.state]
    omega
  | return_ e s1 =>
    simp only [hb, Flow.state] at h
    simp only [LoopEnd.state]
    omega

/-- The body never writes the `err` of line 84. -/
theorem loopBody_err (env : Env) (cfg : Config) (l : Locals) (s : State) :
    (∀ l1 s1, loopBody env cfg l s = .continue_ l1 s1 → l1.err = l.err) ∧
    (∀ l1 s1, loopBody env cfg l s = .break_ l1 s1 → l1.err = l.err) := by
  rcases loopBody_cases env cfg l s with ⟨e, h⟩ | h | ⟨e, h⟩ | ⟨e, h⟩ | ⟨a, h⟩ <;>
    (rw [h]; constructor <;> intro l1 s1 h1 <;> cases h1 <;> rfl)

/-- The okta.yaml warning makes no counted call. -/
theorem warnOktaConfig_counts (env : Env) :
    (warnOktaConfig env State.init).wsaCalls = 0 ∧
    (warnOktaConfig env State.init).establishCalls = 0 ∧
    (warnOktaConfig env State.init).removeCalls = 0 := by
  unfold warnOktaConfig
  cases env.oktaConfig with
  | none => simp [State.init]
  | some e => cases e <;> simp [State.init, assertPathError, ConsolePrint]

/-- The statements after the loop make no counted call. -/
theorem afterLoop_counts (l : Locals) (s : State) :
    (afterLoop l s).2.wsaCalls = s.wsaCalls ∧
    (afterLoop l s).2.establishCalls = s.establishCalls ∧
    (afterLoop l s).2.removeCalls = s.removeCalls := by
  unfold afterLoop
  cases l.err with
  | none => simp
  | some e =>
    cases l.apiErr with
    | none => simp
    | some a => by_cases h : a.ErrorType = "invalid_grant" <;> simp [h, ConsolePrint]

/-- The counters of a run are those of its loop, started from zero. -/
theorem RunE_counts (env : Env) :
    (RunE env).2.establishCalls ≤ 2 ∧ (RunE env).2.removeCalls ≤ 2 ∧
    (RunE env).2.removeCalls ≤ (RunE env).2.establishCalls := by
  unfold RunE
  cases env.evaluateSettings with
  | error e => simp [State.init]
  | ok cfg =>
    have hw := warnOktaConfig_counts env
    cases hf : env.checkRequiredFlags requiredFlags with
    | some e => simp [hw]
    | none =>
      have hl := forLoop_one_counts env cfg ⟨none, none⟩ (warnOktaConfig env State.init)
      simp only
      cases hb : forLoop env cfg 1 ⟨none, none⟩ (warnOktaConfig env State.init) with
      | returned e s1 =>
        simp only [hb, LoopEnd.state] at hl
        simp only
        omega
      | fellThrough l1 s1 =>
        have ha := afterLoop_counts l1 s1
        simp only [hb, LoopEnd.state] at hl
        simp only
        omega

/-! ## Whole runs, by the results they receive -/

/-- The state at the loop's entry: no counted call yet, and on the console
at most the okta.yaml warning. -/
theorem warnOktaConfig_shape (env : Env) :
    warnOktaConfig env State.init = ⟨0, 0, 0, (warnOktaConfig env State.init).console⟩ ∧
    ∀ p ∈ (warnOktaConfig env State.init).console, p.format = oktaYamlWarning := by
  unfold warnOktaConfig
  cases env.oktaConfig with
  | none => simp [State.init]
  | some e => cases e <;> simp [State.init, assertPathError, ConsolePrint]

/-- A run whose settings and required flags are fine is its loop followed by
the statements after the loop. -/
theorem RunE_of_preamble (env : Env) (cfg : Config)
    (hcfg : env.evaluateSettings = .ok cfg)
    (hflags : env.checkRequiredFlags requiredFlags = none) :
    RunE env =
      match forLoop env cfg 1 ⟨none, none⟩
          ⟨0, 0, 0, (warnOktaConfig env State.init).console⟩ with
      | .returned e s => (e, s)
      | .fellThrough l s => afterLoop l s := by
  unfold RunE
  simp only [hcfg, hflags]
  rw [← (warnOktaConfig_shape env).1]

/-- Attempt 1 succeeds. -/
theorem run_success (env : Env) (cfg : Config)
    (hcfg : env.evaluateSettings = .ok cfg)
    (hflags : env.checkRequiredFlags requiredFlags = none)
    (hw : env.newWebSSOAuthentication cfg 0 = none)
    (he : env.establishIAMCredentials 0 = none) :
    RunE env = (none, ⟨1, 1, 0, (warnOktaConfig env State.init).console⟩) := by
  rw [RunE_of_preamble env cfg hcfg hflags, forLoop_one,
    loopBody_success env cfg _ ⟨0, 0, 0, _⟩ hw he]
  simp [afterLoop]

/-- Attempt 1 fails with something other than `invalid_grant`. -/
theorem run_other_error (env : Env) (cfg : Config) (e : GoError)
    (hcfg : env.evaluateSettings = .ok cfg)
    (hflags : env.checkRequiredFlags requiredFlags = none)
    (hw : env.newWebSSOAuthentication cfg 0 = none)
    (he : env.establishIAMCredentials 0 = some e)
    (hk : ¬ IsInvalidGrant (some e)) :
    RunE env = (some e, ⟨1, 1, 0, (warnOktaConfig env State.init).console⟩) := by
  rw [RunE_of_preamble env cfg hcfg hflags, forLoop_one,
    loopBody_other_error env cfg _ ⟨0, 0, 0, _⟩ e hw he hk]

/-- Attempt 1 fails with `invalid_grant` and no token is removed. -/
theorem run_invalid_grant_kept (env : Env) (cfg : Config) (a : APIError)
    (hcfg : env.evaluateSettings = .ok cfg)
    (hflags : env.checkRequiredFlags requiredFlags = none)
    (hw : env.newWebSSOAuthentication cfg 0 = none)
    (he : env.establishIAMCredentials 0 = some (.api a))
    (ha : a.ErrorType = "invalid_grant")
    (hr : env.removeCachedAccessToken 0 = false) :
    RunE env = (some (.api a), ⟨1, 1, 1, (warnOktaConfig env State.init).console⟩) := by
  rw [RunE_of_preamble env cfg hcfg hflags, forLoop_one,
    loopBody_invalid_grant_kept env cfg _ ⟨0, 0, 0, _⟩ a hw he ha hr]

/-- Attempt 1 fails with `invalid_grant` and a token is removed: the run is
attempt 2, entered with the retry notice printed. -/
theorem run_retry (env : Env) (cfg : Config) (a : APIError)
    (hcfg : env.evaluateSettings = .ok cfg)
    (hflags : env.checkRequiredFlags requiredFlags = none)
    (hw : env.newWebSSOAuthentication cfg 0 = none)
    (he : env.establishIAMCredentials 0 = some (.api a))
    (ha : a.ErrorType = "invalid_grant")
    (hr : env.removeCachedAccessToken 0 = true) :
    RunE env =
      match loopBody env cfg ⟨none, some a⟩
          ⟨1, 1, 1, (warnOktaConfig env State.init).console ++ [⟨retryNotice, []⟩]⟩ with
      | .continue_ l s => afterLoop l s
      | .break_ l s => afterLoop l s
      | .return_ e s => (e, s) := by
  rw [RunE_of_preamble env cfg hcfg hflags, forLoop_one,
    loopBody_invalid_grant_removed env cfg _ ⟨0, 0, 0, _⟩ a hw he ha hr]
  simp only [forLoop_two]
  cases loopBody env cfg ⟨none, some a⟩
    ⟨1, 1, 1, (warnOktaConfig env State.init).console ++ [⟨retryNotice, []⟩]⟩ <;> rfl

/-- Attempt 2 succeeds. -/
theorem run_retry_success (env : Env) (cfg : Config) (a : APIError)
    (hcfg : env.evaluateSettings = .ok cfg)
    (hflags : env.checkRequiredFlags requiredFlags = none)
    (hw : env.newWebSSOAuthentication cfg 0 = none)
    (he : env.establishIAMCredentials 0 = some (.api a))
    (ha : a.ErrorType = "invalid_grant")
    (hr : env.removeCachedAccessToken 0 = true)
    (hw2 : env.newWebSSOAuthentication cfg 1 = none)
    (he2 : env.establishIAMCredentials 1 = none) :
    RunE env =
      (none, ⟨2, 2, 1, (warnOktaConfig env State.init).console ++ [⟨retryNotice, []⟩]⟩) := by
  rw [run_retry env cfg a hcfg hflags hw he ha hr,
    loopBody_success env cfg _ ⟨1, 1, 1, _⟩ hw2 he2]
  simp [afterLoop]

/-- Attempt 2 fails with something other than `invalid_grant`. -/
theorem run_retry_other_error (env : Env) (cfg : Config) (a : APIError) (e : GoError)
    (hcfg : env.evaluateSettings = .ok cfg)
    (hflags : env.checkRequiredFlags requiredFlags = none)
    (hw : env.newWebSSOAuthentication cfg 0 = none)
    (he : env.establishIAMCredentials 0 = some (.api a))
    (ha : a.ErrorType = "invalid_grant")
    (hr : env.removeCachedAccessToken 0 = true)
    (hw2 : env.newWebSSOAuthentication cfg 1 = none)
    (he2 : env.establishIAMCredentials 1 = some e)
    (hk : ¬ IsInvalidGrant (some e)) :
    RunE env =
      (some e, ⟨2, 2, 1, (warnOktaConfig env State.init).console ++ [⟨retryNotice, []⟩]⟩) := by
  rw [run_retry env cfg a hcfg hflags hw he ha hr,
    loopBody_other_error env cfg _ ⟨1, 1, 1, _⟩ e hw2 he2 hk]

/-- Attempt 2 fails with `invalid_grant` and no token is removed. -/
theorem run_retry_invalid_grant_kept (env : Env) (cfg : Config) (a b : APIError)
    (hcfg : env.evaluateSettings = .ok cfg)
    (hflags : env.checkRequiredFlags requiredFlags = none)
    (hw : env.newWebSSOAuthentication cfg 0 = none)
    (he : env.establishIAMCredentials 0 = some (.api a))
    (ha : a.ErrorType = "invalid_grant")
    (hr : env.removeCachedAccessToken 0 = true)
    (hw2 : env.newWebSSOAuthentication cfg 1 = none)
    (he2 : env.establishIAMCredentials 1 = some (.api b))
    (hb : b.ErrorType = "invalid_grant")
    (hr2 : env.removeCachedAccessToken 1 = false) :
    RunE env =
      (some (.api b),
        ⟨2, 2, 2, (warnOktaConfig env State.init).console ++ [⟨retryNotice, []⟩]⟩) := by
  rw [run_retry env cfg a hcfg hflags hw he ha hr,
    loopBody_invalid_grant_kept env cfg _ ⟨1, 1, 1, _⟩ b hw2 he2 hb hr2]

/-- Attempt 2 fails with `invalid_grant` and a token is removed again: the
loop ends by its condition, and the statements after it read the `err` of
line 84, which is nil. -/
theorem run_retry_invalid_grant_removed (env : Env) (cfg : Config) (a b : APIError)
    (hcfg : env.evaluateSettings = .ok cfg)
    (hflags : env.checkRequiredFlags requiredFlags = none)
    (hw : env.newWebSSOAuthentication cfg 0 = none)
    (he : env.establishIAMCredentials 0 = some (.api a))
    (ha : a.ErrorType = "invalid_grant")
    (hr : env.removeCachedAccessToken 0 = true)
    (hw2 : env.newWebSSOAuthentication cfg 1 = none)
    (he2 : env.establishIAMCredentials 1 = some (.api b))
    (hb : b.ErrorType = "invalid_grant")
    (hr2 : env.removeCachedAccessToken 1 = true) :
    RunE env =
      (none,
        ⟨2, 2, 2, (warnOktaConfig env State.init).console ++
          [⟨retryNotice, []⟩, ⟨retryNotice, []⟩]⟩) := by
  rw [run_retry env cfg a hcfg hflags hw he ha hr,
    loopBody_invalid_grant_removed env cfg _ ⟨1, 1, 1, _⟩ b hw2 he2 hb hr2]
  simp [afterLoop]

/-- Once attempt 1 has failed with `invalid_grant` and a token was removed,
the run makes its second call, whatever comes next. -/
theorem run_retry_calls (env : Env) (cfg : Config) (a : APIError)
    (hcfg : env.evaluateSettings = .ok cfg)
    (hflags : env.checkRequiredFlags requiredFlags = none)
    (hw : env.newWebSSOAuthentication cfg 0 = none)
    (he : env.establishIAMCredentials 0 = some (.api a))
    (ha : a.ErrorType = "invalid_grant")
    (hr : env.removeCachedAccessToken 0 = true)
    (hw2 : env.newWebSSOAuthentication cfg 1 = none) :
    (RunE env).2.establishCalls = 2 := by
  rcases result_cases (env.establishIAMCredentials 1) with he2 | ⟨b, he2, hb⟩ | ⟨e, he2, hk⟩
  · rw [run_retry_success env cfg a hcfg hflags hw he ha hr hw2 he2]
  · cases hr2 : env.removeCachedAccessToken 1 with
    | false =>
      rw [run_retry_invalid_grant_kept env cfg a b hcfg hflags hw he ha hr hw2 he2 hb hr2]
    | true =>
      rw [run_retry_invalid_grant_removed env cfg a b hcfg hflags hw he ha hr hw2 he2 hb hr2]
  · rw [run_retry_other_error env cfg a e hcfg hflags hw he ha hr hw2 he2 hk]

/-- The console at the loop's entry holds neither of the two fixed notices. -/
theorem printed_warnOktaConfig (env : Env) (format : String) (hf : format ≠ oktaYamlWarning) :
    List.countP (fun p : Print => p.format = format) (warnOktaConfig env State.init).console = 0 := by
  rw [List.countP_eq_zero]
  intro p hp
  have := (warnOktaConfig_shape env).2 p hp
  simp [this, Ne.symm hf]

/-- A missing okta.yaml, or a usable one, prints nothing. -/
theorem warnOktaConfig_silent (env : Env)
    (hyaml : env.oktaConfig = none ∨ ∃ m, env.oktaConfig = some (.path m)) :
    (warnOktaConfig env State.init).console = [] := by
  unfold warnOktaConfig
  rcases hyaml with h | ⟨m, h⟩ <;> simp [h, State.init, assertPathError]

theorem retryNotice_ne_warning : retryNotice ≠ oktaYamlWarning := by decide

theorem remediationGuidance_ne_warning : remediationGuidance ≠ oktaYamlWarning := by decide

theorem remediationGuidance_ne_retryNotice : remediationGuidance ≠ retryNotice := by decide

/-! ## Runs that end before an attempt completes -/

/-- The settings cannot be evaluated: nothing else happens. -/
theorem run_settings_error (env : Env) (e : GoError)
    (hcfg : env.evaluateSettings = .error e) :
    RunE env = (some e, State.init) := by
  unfold RunE
  simp only [hcfg]

/-- A required flag is missing: the run ends before the loop. -/
theorem run_flags_error (env : Env) (cfg : Config) (e : GoError)
    (hcfg : env.evaluateSettings = .ok cfg)
    (hflags : env.checkRequiredFlags requiredFlags = some e) :
    RunE env = (some e, ⟨0, 0, 0, (warnOktaConfig env State.init).console⟩) := by
  unfold RunE
  simp only [hcfg, hflags]
  rw [← (warnOktaConfig_shape env).1]

/-- The first `NewWebSSOAuthentication` fails. -/
theorem run_wsa_error (env : Env) (cfg : Config) (e : GoError)
    (hcfg : env.evaluateSettings = .ok cfg)
    (hflags : env.checkRequiredFlags requiredFlags = none)
    (hw : env.newWebSSOAuthentication cfg 0 = some e) :
    RunE env = (some e, ⟨1, 0, 0, (warnOktaConfig env State.init).console⟩) := by
  rw [RunE_of_preamble env cfg hcfg hflags, forLoop_one,
    loopBody_wsa_error env cfg _ ⟨0, 0, 0, _⟩ e hw]

/-- The second `NewWebSSOAuthentication` fails. -/
theorem run_retry_wsa_error (env : Env) (cfg : Config) (a : APIError) (e : GoError)
    (hcfg : env.evaluateSettings = .ok cfg)
    (hflags : env.checkRequiredFlags requiredFlags = none)
    (hw : env.newWebSSOAuthentication cfg 0 = none)
    (he : env.establishIAMCredentials 0 = some (.api a))
    (ha : a.ErrorType = "invalid_grant")
    (hr : env.removeCachedAccessToken 0 = true)
    (hw2 : env.newWebSSOAuthentication cfg 1 = some e) :
    RunE env =
      (some e, ⟨2, 1, 1, (warnOktaConfig env State.init).console ++ [⟨retryNotice, []⟩]⟩) := by
  rw [run_retry env cfg a hcfg hflags hw he ha hr,
    loopBody_wsa_error env cfg _ ⟨1, 1, 1, _⟩ e hw2]

/-- A successful attempt did not fail with `invalid_grant`. -/
theorem not_isInvalidGrant_none : ¬ IsInvalidGrant none := by
  rintro ⟨b, hb, _⟩
  cases hb

/-! ## The statements after the loop -/

/-- A pass through the body prints nothing but the retry notice. -/
theorem loopBody_printed (env : Env) (cfg : Config) (l : Locals) (s : State)
    (format : String) (hf : format ≠ retryNotice) :
    printed format (loopBody env cfg l s).state = printed format s := by
  rcases loopBody_cases env cfg l s with ⟨e, h⟩ | h | ⟨e, h⟩ | ⟨e, h⟩ | ⟨a, h⟩ <;>
    simp [h, Flow.state, printed, List.countP_append, Ne.symm hf]

/-- The loop entered at attempt 2 ends with the `err` of line 84 untouched
and nothing but retry notices printed. -/
theorem forLoop_two_frame (env : Env) (cfg : Config) (l : Locals) (s : State)
    (format : String) (hf : format ≠ retryNotice) :
    printed format (forLoop env cfg 2 l s).state = printed format s ∧
    ∀ l1 s1, forLoop env cfg 2 l s = .fellThrough l1 s1 → l1.err = l.err := by
  have hp := loopBody_printed env cfg l s format hf
  have he := loopBody_err env cfg l s
  rw [forLoop_two]
  cases hb : loopBody env cfg l s with
  | continue_ l2 s2 =>
    rw [hb] at hp
    refine ⟨hp, ?_⟩
    intro l1 s1 h
    cases h
    exact he.1 l2 s2 hb
  | break_ l2 s2 =>
    rw [hb] at hp
    refine ⟨hp, ?_⟩
    intro l1 s1 h
    cases h
    exact he.2 l2 s2 hb
  | return_ e s2 =>
    rw [hb] at hp
    refine ⟨hp, ?_⟩
    intro l1 s1 h
    cases h

/-- The whole loop ends with the `err` of line 84 untouched and nothing but
retry notices printed. -/
theorem forLoop_one_frame (env : Env) (cfg : Config) (l : Locals) (s : State)
    (format : String) (hf : format ≠ retryNotice) :
    printed format (forLoop env cfg 1 l s).state = printed format s ∧
    ∀ l1 s1, forLoop env cfg 1 l s = .fellThrough l1 s1 → l1.err = l.err := by
  have hp := loopBody_printed env cfg l s format hf
  have he := loopBody_err env cfg l s
  rw [forLoop_one]
  cases hb : loopBody env cfg l s with
  | continue_ l2 s2 =>
    rw [hb] at hp
    have h2 := forLoop_two_frame env cfg l2 s2 format hf
    refine ⟨by simpa [Flow.state] using h2.1.trans hp, ?_⟩
    intro l1 s1 h
    exact (h2.2 l1 s1 h).trans (he.1 l2 s2 hb)
  | break_ l2 s2 =>
    rw [hb] at hp
    refine ⟨hp, ?_⟩
    intro l1 s1 h
    cases h
    exact he.2 l2 s2 hb
  | return_ e s2 =>
    rw [hb] at hp
    refine ⟨hp, ?_⟩
    intro l1 s1 h
    cases h

/-- The block of lines 126-131 never runs its body: whenever the loop is left
without a `return`, the `err` it tests is the nil left by
`CheckRequiredFlags`.  So no run prints the remediation guidance. -/
theorem remediationGuidance_never_printed (env : Env) :
    printed remediationGuidance (RunE env).2 = 0 := by
  unfold RunE
  cases env.evaluateSettings with
  | error e => simp [State.init, printed]
  | ok cfg =>
    have h0 : printed remediationGuidance (warnOktaConfig env State.init) = 0 :=
      printed_warnOktaConfig env _ remediationGuidance_ne_warning
    cases hf : env.checkRequiredFlags requiredFlags with
    | some e => simpa using h0
    | none =>
      have hl := forLoop_one_frame env cfg ⟨none, none⟩ (warnOktaConfig env State.init)
        remediationGuidance remediationGuidance_ne_retryNotice
      simp only
      cases hb : forLoop env cfg 1 ⟨none, none⟩ (warnOktaConfig env State.init) with
      | returned e s1 =>
        rw [hb] at hl
        simpa [LoopEnd.state, h0] using hl.1
      | fellThrough l1 s1 =>
        have herr : l1.err = none := hl.2 l1 s1 hb
        rw [hb] at hl
        simp only [afterLoop, herr]
        simpa [LoopEnd.state, h0] using hl.1

/-! ## The claims -/

/-- C1 (retry gate): with settings and required flags fine and every
`NewWebSSOAuthentication` succeeding, `RunE` calls `EstablishIAMCredentials` a
second time if and only if attempt 1 failed with an `invalid_grant` APIError
and `RemoveCachedAccessToken` returned true; when attempt 1 fails with
`invalid_grant` and `RemoveCachedAccessToken` returns false, `RunE` returns
that error at once, with exactly one call. -/
theorem C1_retry_gate (env : Env) (cfg : Config)
    (hcfg : env.evaluateSettings = .ok cfg)
    (hflags : env.checkRequiredFlags requiredFlags = none)
    (hwsa : ∀ k, env.newWebSSOAuthentication cfg k = none) :
    (2 ≤ (RunE env).2.establishCalls ↔
      IsInvalidGrant (env.establishIAMCredentials 0) ∧ env.removeCachedAccessToken 0 = true) ∧
    (IsInvalidGrant (env.establishIAMCredentials 0) → env.removeCachedAccessToken 0 = false →
      (RunE env).1 = env.establishIAMCredentials 0 ∧ (RunE env).2.establishCalls = 1 ∧
      (RunE env).2.wsaCalls = 1) := by
  rcases result_cases (env.establishIAMCredentials 0) with he | ⟨a, he, ha⟩ | ⟨e, he, hk⟩
  · have hrun := run_success env cfg hcfg hflags (hwsa 0) he
    have hno : ¬ IsInvalidGrant (env.establishIAMCredentials 0) := by
      rintro ⟨b, hb, _⟩
      rw [he] at hb
      cases hb
    constructor
    · simp [hrun, hno]
    · intro h
      exact absurd h hno
  · have hig : IsInvalidGrant (env.establishIAMCredentials 0) := ⟨a, he, ha⟩
    cases hr : env.removeCachedAccessToken 0 with
    | false =>
      have hrun := run_invalid_grant_kept env cfg a hcfg hflags (hwsa 0) he ha hr
      constructor
      · simp [hrun]
      · intro _ _
        simp [hrun, he]
    | true =>
      have hcalls := run_retry_calls env cfg a hcfg hflags (hwsa 0) he ha hr (hwsa 1)
      constructor
      · simp [hcalls, hig]
      · intro _ h
        cases h
  · have hrun := run_other_error env cfg e hcfg hflags (hwsa 0) he hk
    have hno : ¬ IsInvalidGrant (env.establishIAMCredentials 0) := by
      rw [he]
      exact hk
    constructor
    · simp [hrun, hno]
    · intro h
      exact absurd h hno

/-- C1 at a run whose attempt 1 fails with `invalid_grant` while no cached
token exists. -/
theorem C1_retry_gate_witness :
    (2 ≤ (RunE (scripted [some invalidGrant, none] [false])).2.establishCalls ↔
      IsInvalidGrant ((scripted [some invalidGrant, none] [false]).establishIAMCredentials 0) ∧
      (scripted [some invalidGrant, none] [false]).removeCachedAccessToken 0 = true) ∧
    (IsInvalidGrant ((scripted [some invalidGrant, none] [false]).establishIAMCredentials 0) →
      (scripted [some invalidGrant, none] [false]).removeCachedAccessToken 0 = false →
      (RunE (scripted [some invalidGrant, none] [false])).1 =
        (scripted [some invalidGrant, none] [false]).establishIAMCredentials 0 ∧
      (RunE (scripted [some invalidGrant, none] [false])).2.establishCalls = 1 ∧
      (RunE (scripted [some invalidGrant, none] [false])).2.wsaCalls = 1) :=
  C1_retry_gate (scripted [some invalidGrant, none] [false]) ⟨0⟩ rfl rfl (fun _ => rfl)

/-- C2 (bounded retry): whatever `EstablishIAMCredentials`,
`RemoveCachedAccessToken` and every other collaborator return, one execution
of `RunE` calls `EstablishIAMCredentials` at most twice; there is no third
attempt. -/
theorem C2_bounded_retry (env : Env) : (RunE env).2.establishCalls ≤ 2 :=
  (RunE_counts env).1

/-- C3, the run that breaks it: both attempts fail with `invalid_grant` and a
token is removed after each.  `EstablishIAMCredentials` is called twice, yet
`RunE` returns nil and the console holds two retry notices and no
remediation guidance. -/
theorem C3_guidance_not_printed :
    RunE (scripted [some invalidGrant, some invalidGrant] [true, true]) =
      (none, ⟨2, 2, 2, [⟨retryNotice, []⟩, ⟨retryNotice, []⟩]⟩) ∧
    printed remediationGuidance
      (RunE (scripted [some invalidGrant, some invalidGrant] [true, true])).2 = 0 := by
  have h : RunE (scripted [some invalidGrant, some invalidGrant] [true, true]) =
      (none, ⟨2, 2, 2, [⟨retryNotice, []⟩, ⟨retryNotice, []⟩]⟩) := by
    rw [run_retry_invalid_grant_removed _ ⟨0⟩ _ _ rfl rfl rfl rfl rfl rfl rfl rfl rfl rfl]
    rfl
  refine ⟨h, ?_⟩
  rw [h]
  decide

/-- C4, the run that breaks it: attempt 1 and attempt 2 both fail, a token is
removed after each, and `RunE` returns nil instead of the error of
attempt 2. -/
theorem C4_failure_swallowed :
    (scripted [some invalidGrant, some invalidGrantAgain] [true, true]).establishIAMCredentials 0
      = some invalidGrant ∧
    (scripted [some invalidGrant, some invalidGrantAgain] [true, true]).establishIAMCredentials 1
      = some invalidGrantAgain ∧
    (RunE (scripted [some invalidGrant, some invalidGrantAgain] [true, true])).2.establishCalls
      = 2 ∧
    (RunE (scripted [some invalidGrant, some invalidGrantAgain] [true, true])).1 = none := by
  rw [run_retry_invalid_grant_removed _ ⟨0⟩ _ _ rfl rfl rfl rfl rfl rfl rfl rfl rfl rfl]
  exact ⟨rfl, rfl, rfl, rfl⟩

/-- C5 as written fails: when both attempts fail with `invalid_grant` and a
token was removed after attempt 1, `RemoveCachedAccessToken` is called a
second time after attempt 2. -/
theorem C5_invalidated_twice :
    ¬ ((RunE (scripted [some invalidGrant, some invalidGrantAgain] [true, false])).2.removeCalls
        ≤ 1) := by
  rw [run_retry_invalid_grant_kept _ ⟨0⟩ _ _ rfl rfl rfl rfl rfl rfl rfl rfl rfl rfl]
  decide

/-- C5, as the code has it: `RunE` calls `RemoveCachedAccessToken` once after
each `EstablishIAMCredentials` call that failed with an `invalid_grant`
APIError, and at no other time.  So it is called at most twice and never more
often than `EstablishIAMCredentials`; it is called at all exactly when
attempt 1 was made and failed with `invalid_grant`; and it is called twice
exactly when attempt 1 failed with `invalid_grant`, the first removal
returned true, and attempt 2 was made and failed with `invalid_grant` too.
In every other run the bound is one. -/
theorem C5_invalidation_bounded (env : Env) :
    (RunE env).2.removeCalls ≤ 2 ∧
    (RunE env).2.removeCalls ≤ (RunE env).2.establishCalls ∧
    (1 ≤ (RunE env).2.removeCalls ↔
      1 ≤ (RunE env).2.establishCalls ∧ IsInvalidGrant (env.establishIAMCredentials 0)) ∧
    ((RunE env).2.removeCalls = 2 ↔
      (RunE env).2.establishCalls = 2 ∧
      IsInvalidGrant (env.establishIAMCredentials 0) ∧ env.removeCachedAccessToken 0 = true ∧
      IsInvalidGrant (env.establishIAMCredentials 1)) := by
  refine ⟨(RunE_counts env).2.1, (RunE_counts env).2.2, ?_⟩
  have hnone := not_isInvalidGrant_none
  cases hcfg : env.evaluateSettings with
  | error e0 =>
    rw [run_settings_error env e0 hcfg]
    simp [State.init]
  | ok cfg =>
    cases hflags : env.checkRequiredFlags requiredFlags with
    | some e0 =>
      rw [run_flags_error env cfg e0 hcfg hflags]
      simp
    | none =>
      cases hw : env.newWebSSOAuthentication cfg 0 with
      | some e0 =>
        rw [run_wsa_error env cfg e0 hcfg hflags hw]
        simp
      | none =>
        rcases result_cases (env.establishIAMCredentials 0) with
          he | ⟨a, he, ha⟩ | ⟨e, he, hk⟩
        · rw [run_success env cfg hcfg hflags hw he]
          simp [he, hnone]
        · have hig : IsInvalidGrant (env.establishIAMCredentials 0) := ⟨a, he, ha⟩
          cases hr : env.removeCachedAccessToken 0 with
          | false =>
            rw [run_invalid_grant_kept env cfg a hcfg hflags hw he ha hr]
            simp [hig]
          | true =>
            cases hw2 : env.newWebSSOAuthentication cfg 1 with
            | some e0 =>
              rw [run_retry_wsa_error env cfg a e0 hcfg hflags hw he ha hr hw2]
              simp [hig]
            | none =>
              rcases result_cases (env.establishIAMCredentials 1) with
                he2 | ⟨b, he2, hb⟩ | ⟨e, he2, hk⟩
              · rw [run_retry_success env cfg a hcfg hflags hw he ha hr hw2 he2]
                simp [hig, he2, hnone]
              · have hig2 : IsInvalidGrant (env.establishIAMCredentials 1) := ⟨b, he2, hb⟩
                cases hr2 : env.removeCachedAccessToken 1 with
                | false =>
                  rw [run_retry_invalid_grant_kept env cfg a b hcfg hflags hw he ha hr hw2
                    he2 hb hr2]
                  simp [hig, hig2]
                | true =>
                  rw [run_retry_invalid_grant_removed env cfg a b hcfg hflags hw he ha hr hw2
                    he2 hb hr2]
                  simp [hig, hig2]
              · rw [run_retry_other_error env cfg a e hcfg hflags hw he ha hr hw2 he2 hk]
                simp [hig, he2, hk]
        · rw [run_other_error env cfg e hcfg hflags hw he hk]
          simp [he, hk]

/-- C6 (no retry on unrelated error): when attempt 1 fails with an error that
is not an `invalid_grant` APIError, `RunE` returns exactly that error, calls
`EstablishIAMCredentials` once, never calls `RemoveCachedAccessToken`, and
prints neither the retry notice nor the remediation guidance. -/
theorem C6_unrelated_error (env : Env) (cfg : Config) (e : GoError)
    (hcfg : env.evaluateSettings = .ok cfg)
    (hflags : env.checkRequiredFlags requiredFlags = none)
    (hw : env.newWebSSOAuthentication cfg 0 = none)
    (he : env.establishIAMCredentials 0 = some e)
    (hk : ¬ IsInvalidGrant (some e)) :
    (RunE env).1 = some e ∧ (RunE env).2.establishCalls = 1 ∧ (RunE env).2.removeCalls = 0 ∧
    printed retryNotice (RunE env).2 = 0 ∧ printed remediationGuidance (RunE env).2 = 0 := by
  rw [run_other_error env cfg e hcfg hflags hw he hk]
  refine ⟨rfl, rfl, rfl, ?_, ?_⟩
  · exact printed_warnOktaConfig env _ retryNotice_ne_warning
  · exact printed_warnOktaConfig env _ remediationGuidance_ne_warning

/-- C6 at a provider error of another kind. -/
theorem C6_unrelated_error_witness :
    (RunE (scripted [some accessDenied] [true])).1 = some accessDenied ∧
    (RunE (scripted [some accessDenied] [true])).2.establishCalls = 1 ∧
    (RunE (scripted [some accessDenied] [true])).2.removeCalls = 0 ∧
    printed retryNotice (RunE (scripted [some accessDenied] [true])).2 = 0 ∧
    printed remediationGuidance (RunE (scripted [some accessDenied] [true])).2 = 0 :=
  C6_unrelated_error (scripted [some accessDenied] [true]) ⟨0⟩ accessDenied rfl rfl rfl rfl
    (by
      rintro ⟨a, h, ha⟩
      cases h
      exact absurd ha (by decide))

/-- C7 (no retry on success): with settings and required flags fine, no
error from okta.yaml other than a path error, and attempt 1 succeeding, `RunE`
returns nil after one `EstablishIAMCredentials` call, no
`RemoveCachedAccessToken` call, and nothing printed. -/
theorem C7_success (env : Env) (cfg : Config)
    (hcfg : env.evaluateSettings = .ok cfg)
    (hyaml : env.oktaConfig = none ∨ ∃ m, env.oktaConfig = some (.path m))
    (hflags : env.checkRequiredFlags requiredFlags = none)
    (hw : env.newWebSSOAuthentication cfg 0 = none)
    (he : env.establishIAMCredentials 0 = none) :
    (RunE env).1 = none ∧ (RunE env).2.establishCalls = 1 ∧ (RunE env).2.removeCalls = 0 ∧
    (RunE env).2.console = [] := by
  rw [run_success env cfg hcfg hflags hw he]
  exact ⟨rfl, rfl, rfl, warnOktaConfig_silent env hyaml⟩

/-- C7 at a run whose only attempt succeeds. -/
theorem C7_success_witness :
    (RunE (scripted [none] [true])).1 = none ∧
    (RunE (scripted [none] [true])).2.establishCalls = 1 ∧
    (RunE (scripted [none] [true])).2.removeCalls = 0 ∧
    (RunE (scripted [none] [true])).2.console = [] :=
  C7_success (scripted [none] [true]) ⟨0⟩ rfl (Or.inl rfl) rfl rfl rfl

/-- C8 (successful recovery): attempt 1 fails with `invalid_grant`,
`RemoveCachedAccessToken` returns true and attempt 2 succeeds; then `RunE`
returns nil, the retry notice is printed exactly once and the remediation
guidance is not printed. -/
theorem C8_recovery (env : Env) (cfg : Config)
    (hcfg : env.evaluateSettings = .ok cfg)
    (hflags : env.checkRequiredFlags requiredFlags = none)
    (hw : env.newWebSSOAuthentication cfg 0 = none)
    (he : IsInvalidGrant (env.establishIAMCredentials 0))
    (hr : env.removeCachedAccessToken 0 = true)
    (hw2 : env.newWebSSOAuthentication cfg 1 = none)
    (he2 : env.establishIAMCredentials 1 = none) :
    (RunE env).1 = none ∧ (RunE env).2.establishCalls = 2 ∧
    printed retryNotice (RunE env).2 = 1 ∧ printed remediationGuidance (RunE env).2 = 0 := by
  obtain ⟨a, he, ha⟩ := he
  rw [run_retry_success env cfg a hcfg hflags hw he ha hr hw2 he2]
  refine ⟨rfl, rfl, ?_, ?_⟩
  · simp only [printed, List.countP_append,
      printed_warnOktaConfig env _ retryNotice_ne_warning]
    simp
  · simp only [printed, List.countP_append,
      printed_warnOktaConfig env _ remediationGuidance_ne_warning]
    simp [Ne.symm remediationGuidance_ne_retryNotice]

/-- C8 at a run that recovers on attempt 2. -/
theorem C8_recovery_witness :
    (RunE (scripted [some invalidGrant, none] [true])).1 = none ∧
    (RunE (scripted [some invalidGrant, none] [true])).2.establishCalls = 2 ∧
    printed retryNotice (RunE (scripted [some invalidGrant, none] [true])).2 = 1 ∧
    printed remediationGuidance (RunE (scripted [some invalidGrant, none] [true])).2 = 0 :=
  C8_recovery (scripted [some invalidGrant, none] [true]) ⟨0⟩ rfl rfl rfl ⟨_, rfl, rfl⟩ rfl rfl rfl

/-- C9 (configuration error first): when `CheckRequiredFlags` fails, `RunE`
returns its error and has called neither `NewWebSSOAuthentication`, nor
`EstablishIAMCredentials`, nor `RemoveCachedAccessToken`. -/
theorem C9_missing_flags (env : Env) (cfg : Config) (e : GoError)
    (hcfg : env.evaluateSettings = .ok cfg)
    (hflags : env.checkRequiredFlags requiredFlags = some e) :
    (RunE env).1 = some e ∧ (RunE env).2.wsaCalls = 0 ∧ (RunE env).2.establishCalls = 0 ∧
    (RunE env).2.removeCalls = 0 := by
  have hrun : RunE env = (some e, warnOktaConfig env State.init) := by
    unfold RunE
    simp only [hcfg, hflags]
  rw [hrun]
  exact ⟨rfl, warnOktaConfig_counts env⟩

/-- C9 at settings that lack the client id. -/
theorem C9_missing_flags_witness :
    (RunE (missingFlag [none] [true])).1 = some (.other "missing flags: --oidc-client-id") ∧
    (RunE (missingFlag [none] [true])).2.wsaCalls = 0 ∧
    (RunE (missingFlag [none] [true])).2.establishCalls = 0 ∧
    (RunE (missingFlag [none] [true])).2.removeCalls = 0 :=
  C9_missing_flags (missingFlag [none] [true]) ⟨0⟩ _ rfl rfl

/-- C10 (when `RunE` returns nil): with settings and required flags fine and
every `NewWebSSOAuthentication` succeeding, at least one attempt is made, and
`RunE` returns nil if and only if the last `EstablishIAMCredentials` call it
made returned no error, or both attempts failed with `invalid_grant` and
`RemoveCachedAccessToken` returned true after each of them. -/
theorem C10_nil_result (env : Env) (cfg : Config)
    (hcfg : env.evaluateSettings = .ok cfg)
    (hflags : env.checkRequiredFlags requiredFlags = none)
    (hwsa : ∀ k, env.newWebSSOAuthentication cfg k = none) :
    1 ≤ (RunE env).2.establishCalls ∧
    ((RunE env).1 = none ↔
      env.establishIAMCredentials ((RunE env).2.establishCalls - 1) = none ∨
      (IsInvalidGrant (env.establishIAMCredentials 0) ∧ env.removeCachedAccessToken 0 = true ∧
       IsInvalidGrant (env.establishIAMCredentials 1) ∧ env.removeCachedAccessToken 1 = true)) := by
  have hnone : ¬ IsInvalidGrant none := by
    rintro ⟨b, hb, _⟩
    cases hb
  rcases result_cases (env.establishIAMCredentials 0) with he | ⟨a, he, ha⟩ | ⟨e, he, hk⟩
  · rw [run_success env cfg hcfg hflags (hwsa 0) he]
    simp [he]
  · have hig : IsInvalidGrant (env.establishIAMCredentials 0) := ⟨a, he, ha⟩
    cases hr : env.removeCachedAccessToken 0 with
    | false =>
      rw [run_invalid_grant_kept env cfg a hcfg hflags (hwsa 0) he ha hr]
      simp [he]
    | true =>
      rcases result_cases (env.establishIAMCredentials 1) with he2 | ⟨b, he2, hb⟩ | ⟨e, he2, hk⟩
      · rw [run_retry_success env cfg a hcfg hflags (hwsa 0) he ha hr (hwsa 1) he2]
        simp [he2]
      · have hig2 : IsInvalidGrant (env.establishIAMCredentials 1) := ⟨b, he2, hb⟩
        cases hr2 : env.removeCachedAccessToken 1 with
        | false =>
          rw [run_retry_invalid_grant_kept env cfg a b hcfg hflags (hwsa 0) he ha hr (hwsa 1)
            he2 hb hr2]
          simp [he2]
        | true =>
          rw [run_retry_invalid_grant_removed env cfg a b hcfg hflags (hwsa 0) he ha hr (hwsa 1)
            he2 hb hr2]
          simp [hig, hig2]
      · rw [run_retry_other_error env cfg a e hcfg hflags (hwsa 0) he ha hr (hwsa 1) he2 hk]
        simp [he2, hk]
  · rw [run_other_error env cfg e hcfg hflags (hwsa 0) he hk]
    simp [he, hk]

/-- C10 at the run in which both attempts fail with `invalid_grant` and a
token is removed after each. -/
theorem C10_nil_result_witness :
    1 ≤ (RunE (scripted [some invalidGrant, some invalidGrant] [true, true])).2.establishCalls ∧
    ((RunE (scripted [some invalidGrant, some invalidGrant] [true, true])).1 = none ↔
      (scripted [some invalidGrant, some invalidGrant] [true, true]).establishIAMCredentials
        ((RunE (scripted [some invalidGrant, some invalidGrant] [true, true])).2.establishCalls
          - 1) = none ∨
      (IsInvalidGrant
        ((scripted [some invalidGrant, some invalidGrant] [true, true]).establishIAMCredentials 0) ∧
       (scripted [some invalidGrant, some invalidGrant] [true, true]).removeCachedAccessToken 0
        = true ∧
       IsInvalidGrant
        ((scripted [some invalidGrant, some invalidGrant] [true, true]).establishIAMCredentials 1) ∧
       (scripted [some invalidGrant, some invalidGrant] [true, true]).removeCachedAccessToken 1
        = true)) :=
  C10_nil_result (scripted [some invalidGrant, some invalidGrant] [true, true]) ⟨0⟩ rfl rfl
    (fun _ => rfl)

end Web
